import Mathlib

/-!
Verification of the transport abstraction and exclusive-session protocol of
`coins-ledger` (file `src/ledger/src/transports/mod.rs`), a shallow embedding
of the `Ledger` wrapper around the platform `DefaultTransport` together with
its `LedgerAsync` implementation (`init`, `exchange`, `close`).

Effects are made explicit: each embedded operation returns, next to its Rust
result, the list of `Event`s it performs (log records, underlying transport
calls, resource release).  A Rust panic is modelled by an `Option` result of
`none`.  Types that live outside the embedded file (`APDUCommand`,
`APDUAnswer`, `LedgerError`, the concrete transports) are modelled from the
spec and marked as such in their doc comments.
-/

namespace CoinsLedger

/-- Byte strings, as lists of naturals (each conceptually < 256). -/
abbrev Bytes := List Nat

/-- Modelled from the spec: `APDUCommand` (defined in `common.rs`, outside the
embedded sources) — "an immutable value — instruction code, two parameter
bytes, variable-length data payload". -/
structure APDUCommand where
  ins : Nat
  p1 : Nat
  p2 : Nat
  data : Bytes
deriving DecidableEq

/-- Modelled from the spec: `APDUAnswer` (defined in `common.rs`, outside the
embedded sources) — "an immutable value — numeric return/status code, optional
data payload".  The `data` field mirrors the fallible `data()` accessor whose
result the embedded logging code unwraps. -/
structure APDUAnswer where
  retcode : Nat
  data : Option Bytes
deriving DecidableEq

/-- Modelled from the spec: the `LedgerError` taxonomy (defined in
`errors.rs`, outside the embedded sources): DeviceUnavailable, DeviceBusy,
IOFailure, MalformedResponse, BridgeFailure. -/
inductive LedgerError where
  | DeviceUnavailable
  | DeviceBusy
  | IOFailure
  | MalformedResponse
  | BridgeFailure (msg : String)
deriving DecidableEq

/-- Modelled from the spec: the `Display` rendering of a `LedgerError`
(`errors.rs`, outside the embedded sources); it "carries enough context to be
logged and to be distinguished by kind". -/
def LedgerError.display : LedgerError → String
  | .DeviceUnavailable => "device unavailable"
  | .DeviceBusy => "device busy"
  | .IOFailure => "input output failure"
  | .MalformedResponse => "malformed response"
  | .BridgeFailure m => "bridge failure: " ++ m

/-- Lower-case hexadecimal digit, as in the `hex` crate. -/
def hexDigit (n : Nat) : Char :=
  if n < 10 then Char.ofNat (48 + n) else Char.ofNat (87 + n)

/-- Two-digit lower-case hexadecimal rendering of one byte. -/
def hexByte (b : Nat) : String :=
  String.mk [hexDigit (b / 16 % 16), hexDigit (b % 16)]

/-- `hex::encode`: lower-case hexadecimal rendering of a byte string. -/
def hexEncode (bs : Bytes) : String :=
  String.join (bs.map hexByte)

/-- The owned platform transport (`DefaultTransport`: the native HID transport
or the wasm bridge transport, both defined outside the embedded sources),
modelled by its observable exchange behaviour: the reply it produces for each
command. -/
structure DefaultTransport where
  exchangeFn : APDUCommand → Except LedgerError APDUAnswer

/-- `pub struct Ledger(DefaultTransport)`: a Ledger device connection, wrapping
the default transport type. -/
structure Ledger where
  transport : DefaultTransport

/-- The observable effects of the embedded operations: underlying transport
calls, the structured log records of `debug!` / `error!`, and the release of
the device resource. -/
inductive Event where
  | transportNew
  | transportExchange (packet : APDUCommand)
  | debugDispatch (packet : APDUCommand)
  | debugResponse (retcode : Nat) (responseHex : String)
  | errorReceived (err : String)
  | debugPacketWasm (packet : APDUCommand)
  | debugResponseWasm (resp : APDUAnswer)
  | errorReceivedWasm (err : String)
  | release

/-- Is this event a release of the device resource? -/
def Event.isRelease : Event → Bool
  | .release => true
  | _ => false

/-- Is this event a call of the owned transport's `exchange`? -/
def Event.isTransportExchange : Event → Bool
  | .transportExchange _ => true
  | _ => false

/-- Is this event a call of the platform transport factory (`new`/`create`)? -/
def Event.isTransportNew : Event → Bool
  | .transportNew => true
  | _ => false

/-- Native `LedgerAsync::exchange` for `Ledger`: logs the outgoing packet,
performs one `self.0.exchange(packet)`, then logs the outcome and returns the
transport's result unchanged.  In the success branch the debug record's
fields are `resp.retcode()` and `hex::encode(resp.data().unwrap())`: when
`data()` yields nothing the unwrap panics, modelled by a `none` result (the
events emitted before the panic are kept). -/
def Ledger.exchange (l : Ledger) (packet : APDUCommand) :
    List Event × Option (Except LedgerError APDUAnswer) :=
  match l.transport.exchangeFn packet with
  | .ok resp =>
    match resp.data with
    | some d =>
        ([.debugDispatch packet, .transportExchange packet,
          .debugResponse resp.retcode (hexEncode d)], some (.ok resp))
    | none =>
        ([.debugDispatch packet, .transportExchange packet], none)
  | .error e =>
      ([.debugDispatch packet, .transportExchange packet,
        .errorReceived e.display], some (.error e))

/-- Wasm `LedgerAsync::exchange` for `Ledger`: logs the packet (Debug format),
performs one `self.0.exchange(packet)`, logs the response or the error, and
returns the transport's result unchanged.  No fallible accessor is used, so
this path cannot panic. -/
def Ledger.exchangeWasm (l : Ledger) (packet : APDUCommand) :
    List Event × Except LedgerError APDUAnswer :=
  match l.transport.exchangeFn packet with
  | .ok resp =>
      ([.debugPacketWasm packet, .transportExchange packet,
        .debugResponseWasm resp], .ok resp)
  | .error e =>
      ([.debugPacketWasm packet, .transportExchange packet,
        .errorReceivedWasm e.display], .error e)

/-- Native `LedgerAsync::init` for `Ledger`: `Ok(Self(DefaultTransport::new()?))`.
The factory is called exactly once; its result (passed in as `newResult`, the
factory itself lives outside the embedded sources) is propagated by `?`. -/
def Ledger.init (newResult : Except LedgerError DefaultTransport) :
    List Event × Except LedgerError Ledger :=
  match newResult with
  | .ok t => ([.transportNew], .ok ⟨t⟩)
  | .error e => ([.transportNew], .error e)

/-- An opaque foreign-runtime error value (`wasm_bindgen::JsValue`). -/
structure JsValue where
  msg : String
deriving DecidableEq

/-- Modelled from the spec: the `From<JsValue> for LedgerError` conversion
(`errors.rs`, outside the embedded sources) — "results and errors crossing the
bridge boundary must be translated into the shared LedgerError taxonomy"; a
foreign error becomes a `BridgeFailure`. -/
def JsValue.intoLedgerError (v : JsValue) : LedgerError :=
  .BridgeFailure v.msg

/-- Wasm `LedgerAsync::init` for `Ledger`: `DefaultTransport::create().await`
(its result passed in as `createResult`), then `map_err(|err| err.into())`,
then `Ok(Self(res?))`. -/
def Ledger.initWasm (createResult : Except JsValue DefaultTransport) :
    List Event × Except LedgerError Ledger :=
  match (match createResult with
         | .ok t => Except.ok t
         | .error err => Except.error err.intoLedgerError :
         Except LedgerError DefaultTransport) with
  | .ok t => ([.transportNew], .ok ⟨t⟩)
  | .error e => ([.transportNew], .error e)

/-- Modelled from the spec: dropping a `DefaultTransport` releases the device
(the concrete release lives in the `hid`/`wasm` transport modules, outside the
embedded sources; §4.1: release "has no failure mode observable to the
caller"). -/
def DefaultTransport.dropTrace (_t : DefaultTransport) : List Event :=
  [.release]

/-- Rust drop glue for `Ledger`: dropping the struct drops its single field,
the owned transport. -/
def Ledger.dropTrace (l : Ledger) : List Event :=
  l.transport.dropTrace

/-- `LedgerAsync::close` default implementation, `fn close(self) \x7b\x7d`:
consumes the connection; the body does nothing, so the effects are exactly
those of dropping `self` at the end of the call. -/
def Ledger.close (l : Ledger) : List Event :=
  l.dropTrace

/-- How a session's life ends: an explicit `close` call, or the value falling
out of scope. -/
inductive Terminator where
  | closed
  | dropped

/-- The full event trace of one session life: a sequence of `exchange` calls
followed by the terminator.  If an `exchange` panics, unwinding drops the
session value, which still releases the transport. -/
def Ledger.runLife (l : Ledger) : List APDUCommand → Terminator → List Event
  | [], .closed => l.close
  | [], .dropped => l.dropTrace
  | c :: rest, term =>
    match l.exchange c with
    | (tr, some _) => tr ++ l.runLife rest term
    | (tr, none) => tr ++ l.dropTrace

/-- The spec's lifecycle states: `Uninitialized → Connected → Closed`. -/
inductive SessionState where
  | uninitialized
  | connected (l : Ledger)
  | closed

/-- The caller-visible operations of the lifecycle machine.  `initA` carries
the platform factory's result, as in `Ledger.init`. -/
inductive SessAction where
  | initA (newResult : Except LedgerError DefaultTransport)
  | exchangeA (c : APDUCommand)
  | closeA

/-- The lifecycle machine induced by the embedded signatures: `init` is the
sole way to reach `connected`; `exchange` borrows the session immutably and
leaves it unchanged; `close` consumes it.  `none` marks an operation that the
ownership discipline makes unrepresentable. -/
def SessionState.step : SessionState → SessAction → Option SessionState
  | .uninitialized, .initA (.ok t) => some (.connected ⟨t⟩)
  | .uninitialized, .initA (.error _) => some .uninitialized
  | .connected l, .exchangeA _ => some (.connected l)
  | .connected _, .closeA => some .closed
  | _, _ => none

/-- Modelled from the spec: the state of one physical device as the platform
factory sees it (the session lock lives in the `hid`/`wasm` transport modules,
outside the embedded sources) — whether a matching device is present, and the
sessions currently holding it. -/
structure World where
  present : Bool
  live : List Ledger

/-- Actions on the physical device: an `init` attempt (carrying the behaviour
the opened transport would have) or the release of the current session. -/
inductive WorldAction where
  | initA (behaviour : APDUCommand → Except LedgerError APDUAnswer)
  | closeA

/-- Modelled from the spec: one step of the device world.  Opening "fails with
DeviceUnavailable if no matching device is found, or DeviceBusy if another
session already holds it"; otherwise the new session becomes the holder.
Closing releases the device.  Every case returns at once: no branch waits. -/
def World.step (w : World) : WorldAction → World × Option (Except LedgerError Ledger)
  | .initA b =>
    if w.present then
      match w.live with
      | [] => (⟨w.present, [Ledger.mk ⟨b⟩]⟩, some (.ok (Ledger.mk ⟨b⟩)))
      | _ :: _ => (w, some (.error .DeviceBusy))
    else (w, some (.error .DeviceUnavailable))
  | .closeA => (⟨w.present, []⟩, none)

/-- Run a sequence of device-world actions. -/
def World.run (w : World) : List WorldAction → World
  | [] => w
  | a :: rest => ((w.step a).1).run rest

/-- A concrete command used by the closed witness statements. -/
def cmd0 : APDUCommand := ⟨1, 0, 0, []⟩

/-- A transport that always fails with an I/O error. -/
def tIOFail : DefaultTransport := ⟨fun _ => .error .IOFailure⟩

/-- A transport whose reply is a successful answer with no data payload. -/
def tNoData : DefaultTransport := ⟨fun _ => .ok ⟨36864, none⟩⟩

/-- A transport whose reply is a status-only answer (retcode 0x6985, no data
payload). -/
def tDenied : DefaultTransport := ⟨fun _ => .ok ⟨27013, none⟩⟩

/-- A transport whose reply is a successful answer carrying a payload. -/
def tPayload : DefaultTransport := ⟨fun _ => .ok ⟨36864, some [1, 2]⟩⟩

/-- A second concrete command, used by counterexample statements. -/
def cmd2 : APDUCommand := ⟨2, 0, 0, [5]⟩

/-- A third concrete command, used by counterexample statements. -/
def cmd10 : APDUCommand := ⟨3, 1, 2, []⟩

/-- A device world in which a session already holds the (present) device. -/
def wHeld : World := ⟨true, [Ledger.mk tIOFail]⟩

/-- A device world in which no matching device is present. -/
def wAbsent : World := ⟨false, []⟩

/-! ## Helper lemmas -/

/-- An `exchange` never releases the device: its event trace contains no
release, whichever reply the transport produces and even on the panic path. -/
theorem exchange_trace_release_free (l : Ledger) (c : APDUCommand) :
    ((l.exchange c).1).countP Event.isRelease = 0 := by
  unfold Ledger.exchange
  cases h : l.transport.exchangeFn c with
  | ok a =>
    cases hd : a.data <;>
      simp [hd, Event.isRelease, List.countP_cons, List.countP_nil]
  | error e => simp [Event.isRelease, List.countP_cons, List.countP_nil]

/-- Every `exchange` performs exactly one call of the owned transport. -/
theorem exchange_dispatch_count (l : Ledger) (c : APDUCommand) :
    ((l.exchange c).1).countP Event.isTransportExchange = 1 := by
  unfold Ledger.exchange
  cases h : l.transport.exchangeFn c with
  | ok a =>
    cases hd : a.data <;>
      simp [hd, Event.isTransportExchange, List.countP_cons, List.countP_nil]
  | error e => simp [Event.isTransportExchange, List.countP_cons, List.countP_nil]

/-- The one transport call of an `exchange` carries the caller's command. -/
theorem exchange_dispatch_mem (l : Ledger) (c : APDUCommand) :
    Event.transportExchange c ∈ (l.exchange c).1 := by
  unfold Ledger.exchange
  cases h : l.transport.exchangeFn c with
  | ok a => cases hd : a.data <;> simp [hd]
  | error e => simp

/-- When the transport fails, `exchange` completes and returns that error. -/
theorem exchange_error_prop (l : Ledger) (c : APDUCommand) (e : LedgerError)
    (h : l.transport.exchangeFn c = .error e) :
    (l.exchange c).2 = some (.error e) := by
  simp [Ledger.exchange, h]

/-- When the transport succeeds with an answer whose data payload is present,
`exchange` completes and returns that answer. -/
theorem exchange_ok_prop (l : Ledger) (c : APDUCommand) (a : APDUAnswer)
    (d : Bytes) (h : l.transport.exchangeFn c = .ok a) (hd : a.data = some d) :
    (l.exchange c).2 = some (.ok a) := by
  simp [Ledger.exchange, h, hd]

/-- The wasm `exchange` returns the transport's result verbatim, always. -/
theorem exchangeWasm_result (l : Ledger) (c : APDUCommand) :
    (l.exchangeWasm c).2 = l.transport.exchangeFn c := by
  cases h : l.transport.exchangeFn c <;> simp [Ledger.exchangeWasm, h]

/-- One world step keeps the number of live sessions at most one. -/
theorem step_preserves_at_most_one (w : World) (a : WorldAction)
    (h : w.live.length ≤ 1) : ((w.step a).1).live.length ≤ 1 := by
  rcases w with ⟨p, lv⟩
  cases a with
  | closeA => simp [World.step]
  | initA b =>
    cases p with
    | false => simpa [World.step] using h
    | true =>
      cases lv with
      | nil => simp [World.step]
      | cons x xs => simpa [World.step] using h

/-! ## Claims -/

/-- C1: the claim says the diagnostic logging of `exchange` is purely
observational and never panics, for every transport reply including a
successful `APDUAnswer` without a data payload.  The code violates this: on
the native path the success-branch debug record evaluates
`resp.data().unwrap()`, which panics when the answer carries no data payload.
This theorem evaluates the embedding at such a reply: the transport returns a
successful answer (retcode 0x9000, no payload) and `exchange` does not
complete (result `none`). -/
theorem exchange_logging_panics_on_payloadless_success :
    tNoData.exchangeFn cmd0 = .ok ⟨36864, none⟩ ∧
    ((Ledger.mk tNoData).exchange cmd0).2 = none :=
  ⟨rfl, rfl⟩

/-- C2: the claim says `exchange` is pure pass-through — whenever the owned
transport returns an answer `a`, `exchange` returns exactly `a`.  The code
violates this at any answer without a data payload: the native logging panics
before the answer is returned.  Here the transport returns the status-only
answer (retcode 0x6985, no payload) yet `exchange` produces no result. -/
theorem exchange_not_passthrough_on_payloadless_answer :
    tDenied.exchangeFn cmd2 = .ok ⟨27013, none⟩ ∧
    ((Ledger.mk tDenied).exchange cmd2).2 = none :=
  ⟨rfl, rfl⟩

/-- C3: over a whole session life — any sequence of exchanges ended either by
an explicit `close` or by dropping the session (including a drop forced by a
panicking exchange) — the owned transport's release runs exactly once. -/
theorem release_runs_exactly_once (l : Ledger) (cmds : List APDUCommand)
    (term : Terminator) :
    (l.runLife cmds term).countP Event.isRelease = 1 := by
  induction cmds with
  | nil =>
    cases term <;>
      simp [Ledger.runLife, Ledger.close, Ledger.dropTrace,
        DefaultTransport.dropTrace, Event.isRelease]
  | cons c rest ih =>
    have hfree := exchange_trace_release_free l c
    unfold Ledger.runLife
    cases hx : l.exchange c with
    | mk tr res =>
      rw [hx] at hfree
      cases res with
      | some r =>
        simp [List.countP_append, hfree, ih]
      | none =>
        simp [List.countP_append, hfree, Ledger.dropTrace,
          DefaultTransport.dropTrace, Event.isRelease]

/-- C4: `close` has no failure mode observable to the caller — its only
effect is the resource release, it returns no error value — and it consumes
the session: the lifecycle machine admits no operation on a closed session. -/
theorem close_never_fails_and_consumes :
    (∀ l : Ledger, l.close = [Event.release]) ∧
    (∀ a : SessAction, SessionState.closed.step a = none) := by
  refine ⟨fun l => rfl, fun a => ?_⟩
  cases a with
  | initA r => cases r <;> rfl
  | exchangeA c => rfl
  | closeA => rfl

/-- C5: neither `init` nor `exchange` retries the underlying operation: each
call performs the factory call, respectively the transport exchange, exactly
once, and an underlying failure is returned to the caller as that same
`LedgerError`. -/
theorem init_exchange_no_internal_retry :
    (∀ r : Except LedgerError DefaultTransport,
      (Ledger.init r).1.countP Event.isTransportNew = 1 ∧
      ∀ e, r = .error e → (Ledger.init r).2 = .error e) ∧
    (∀ (l : Ledger) (c : APDUCommand),
      (l.exchange c).1.countP Event.isTransportExchange = 1 ∧
      ∀ e, l.transport.exchangeFn c = .error e →
        (l.exchange c).2 = some (.error e)) := by
  constructor
  · intro r
    constructor
    · cases r <;>
        simp [Ledger.init, Event.isTransportNew, List.countP_cons,
          List.countP_nil]
    · intro e he
      subst he
      rfl
  · intro l c
    exact ⟨exchange_dispatch_count l c, fun e he => exchange_error_prop l c e he⟩

/-- C5 witness: at a factory that fails with `IOFailure` and a transport that
fails with `IOFailure`, both failures reach the caller unchanged. -/
theorem init_exchange_no_internal_retry_witness :
    (Ledger.init (.error .IOFailure)).2 = .error .IOFailure ∧
    ((Ledger.mk tIOFail).exchange cmd0).2 = some (.error .IOFailure) :=
  ⟨(init_exchange_no_internal_retry.1 _).2 .IOFailure rfl,
    (init_exchange_no_internal_retry.2 (Ledger.mk tIOFail) cmd0).2 .IOFailure rfl⟩

/-- C6: a failed `exchange` does not poison the session: when the transport
fails with `IOFailure`, `exchange` completes with that error, the lifecycle
step for the exchange leaves the session in the same connected state, and a
subsequent exchange on that same session is still representable. -/
theorem failed_exchange_does_not_poison (l : Ledger) (c : APDUCommand)
    (h : l.transport.exchangeFn c = .error .IOFailure) :
    (l.exchange c).2 = some (.error .IOFailure) ∧
    SessionState.step (.connected l) (.exchangeA c) = some (.connected l) ∧
    ∀ c' : APDUCommand,
      (SessionState.step (.connected l) (.exchangeA c')).isSome = true :=
  ⟨exchange_error_prop l c .IOFailure h, rfl, fun _ => rfl⟩

/-- C6 witness: a concrete always-failing transport satisfies the hypothesis
and the failed exchange indeed surfaces `IOFailure`. -/
theorem failed_exchange_does_not_poison_witness :
    tIOFail.exchangeFn cmd2 = .error .IOFailure ∧
    ((Ledger.mk tIOFail).exchange cmd2).2 = some (.error .IOFailure) :=
  ⟨rfl, (failed_exchange_does_not_poison (Ledger.mk tIOFail) cmd2 rfl).1⟩

/-- C7: exclusivity of the device: a second `init` while a session holds the
(present) device fails with `DeviceBusy`; `init` with no matching device
present fails with `DeviceUnavailable`; and every run of device-world actions
keeps at most one live session.  All world operations are total functions, so
no attempt hangs. -/
theorem init_exclusive :
    (∀ (w : World) (b : APDUCommand → Except LedgerError APDUAnswer),
      w.present = true → w.live ≠ [] →
      (w.step (.initA b)).2 = some (.error .DeviceBusy)) ∧
    (∀ (w : World) (b : APDUCommand → Except LedgerError APDUAnswer),
      w.present = false →
      (w.step (.initA b)).2 = some (.error .DeviceUnavailable)) ∧
    (∀ (w : World) (acts : List WorldAction),
      w.live.length ≤ 1 → (w.run acts).live.length ≤ 1) := by
  refine ⟨?_, ?_, ?_⟩
  · rintro ⟨p, lv⟩ b hp hl
    subst hp
    cases lv with
    | nil => exact absurd rfl hl
    | cons x xs => rfl
  · rintro ⟨p, lv⟩ b hp
    subst hp
    rfl
  · intro w acts
    induction acts generalizing w with
    | nil => exact fun h => h
    | cons a rest ih =>
      intro h
      exact ih _ (step_preserves_at_most_one w a h)

/-- C7 witness: with the device held, a second `init` gets `DeviceBusy`; with
no device present, `init` gets `DeviceUnavailable`; a run of two `init`
attempts and a close keeps at most one live session. -/
theorem init_exclusive_witness :
    (wHeld.step (.initA tIOFail.exchangeFn)).2 = some (.error .DeviceBusy) ∧
    (wAbsent.step (.initA tIOFail.exchangeFn)).2 =
      some (.error .DeviceUnavailable) ∧
    (World.run ⟨true, []⟩
      [.initA tIOFail.exchangeFn, .initA tIOFail.exchangeFn,
        .closeA]).live.length ≤ 1 :=
  ⟨init_exclusive.1 wHeld _ rfl (List.cons_ne_nil _ _),
    init_exclusive.2.1 wAbsent _ rfl,
    init_exclusive.2.2 ⟨true, []⟩ _ (Nat.zero_le 1)⟩

/-- C8: when the factory fails, `init` returns the error and creates no
session; when it succeeds, the session wraps exactly the opened transport; and
every session produced by `init` came from a successful factory result, so
`init` is the sole creation path in the embedding. -/
theorem init_failure_no_session :
    (∀ e, (Ledger.init (.error e)).2 = .error e) ∧
    (∀ t, (Ledger.init (.ok t)).2 = .ok (Ledger.mk t)) ∧
    (∀ (r : Except LedgerError DefaultTransport) (l : Ledger),
      (Ledger.init r).2 = .ok l → r = .ok l.transport) := by
  refine ⟨fun e => rfl, fun t => rfl, ?_⟩
  intro r l h
  cases r with
  | ok t =>
    simp only [Ledger.init, Except.ok.injEq] at h
    subst h
    rfl
  | error e => simp [Ledger.init] at h

/-- C8 witness: a successful factory result yields the wrapping session, and
that session's transport is the opened one. -/
theorem init_failure_no_session_witness :
    (Ledger.init (.ok tIOFail)).2 = .ok (Ledger.mk tIOFail) ∧
    (Except.ok tIOFail : Except LedgerError DefaultTransport) =
      .ok (Ledger.mk tIOFail).transport :=
  ⟨init_failure_no_session.2.1 tIOFail,
    init_failure_no_session.2.2 (.ok tIOFail) (Ledger.mk tIOFail) rfl⟩

/-- C9: on the wasm path every foreign `JsValue` error from opening the device
is translated by the `Into` conversion into the shared taxonomy (a
`BridgeFailure`) before `init` returns it; a successful open yields the
wrapping session, so no foreign error value is ever surfaced. -/
theorem wasm_init_translates_js_errors :
    (∀ jv : JsValue,
      (Ledger.initWasm (.error jv)).2 = .error jv.intoLedgerError) ∧
    (∀ jv : JsValue,
      jv.intoLedgerError = LedgerError.BridgeFailure jv.msg) ∧
    (∀ t, (Ledger.initWasm (.ok t)).2 = .ok (Ledger.mk t)) :=
  ⟨fun _ => rfl, fun _ => rfl, fun _ => rfl⟩

/-- C10 counterexample: the claim says `exchange` is, modulo logging,
observationally equal to the transport's exchange and returns its result
verbatim in every case.  At a successful reply without data payload the native
logging panics instead of returning the result. -/
theorem exchange_transport_equivalence_cex :
    tNoData.exchangeFn cmd10 = .ok ⟨36864, none⟩ ∧
    ((Ledger.mk tNoData).exchange cmd10).2 = none :=
  ⟨rfl, rfl⟩

/-- C10 (amended): every `exchange` performs exactly one transport dispatch,
carrying the caller's command; the transport's result is returned verbatim in
every error case, and in every success case whose answer carries a data
payload (the payloadless success case panics in the native logging); the wasm
path returns the transport's result verbatim unconditionally. -/
theorem exchange_refines_transport (l : Ledger) (c : APDUCommand) :
    ((l.exchange c).1.countP Event.isTransportExchange = 1 ∧
      Event.transportExchange c ∈ (l.exchange c).1) ∧
    (∀ e, l.transport.exchangeFn c = .error e →
      (l.exchange c).2 = some (.error e)) ∧
    (∀ (a : APDUAnswer) (d : Bytes),
      l.transport.exchangeFn c = .ok a → a.data = some d →
      (l.exchange c).2 = some (.ok a)) ∧
    (l.exchangeWasm c).2 = l.transport.exchangeFn c :=
  ⟨⟨exchange_dispatch_count l c, exchange_dispatch_mem l c⟩,
    fun e he => exchange_error_prop l c e he,
    fun a d ha hd => exchange_ok_prop l c a d ha hd,
    exchangeWasm_result l c⟩

/-- C10 witness: a transport replying with a payload-carrying success passes
through verbatim. -/
theorem exchange_refines_transport_witness :
    tPayload.exchangeFn cmd0 = .ok ⟨36864, some [1, 2]⟩ ∧
    ((Ledger.mk tPayload).exchange cmd0).2 = some (.ok ⟨36864, some [1, 2]⟩) :=
  ⟨rfl,
    (exchange_refines_transport (Ledger.mk tPayload) cmd0).2.2.1
      ⟨36864, some [1, 2]⟩ [1, 2] rfl rfl⟩

end CoinsLedger
